import Mathlib

/-!
Shallow embedding of src/speech-recognition.js (class SpeechRecognitionManager).

Conventions of the embedding:
* JS numbers that only ever hold small non-negative integers (counters,
  Date.now() readings) are modelled as Nat; the analytics arithmetic, which
  divides counters, is modelled over the rationals.  IEEE-754 double rounding
  is abstracted away: toFixed and Math.round are modelled as exact rational
  rounding, which agrees with JS on the small discrete values used here.
* The mutable instance (this) is modelled as an explicit State record; each
  method becomes a function from State (plus the inputs it reads, such as a
  Date.now() reading) to State together with its observable outputs.
* The underlying browser recognition engine is an external collaborator; the
  only facts about it that the code depends on are (a) whether it exists at
  construction time and (b) whether recognition.start() / recognition.stop()
  raise, so those are passed as explicit booleans.
* A JS value that is either a number or a string (the emotionalTone fields)
  is modelled by the inductive JsVal; a possibly-undefined value is modelled
  by Option (none = undefined).
-/

/-- Characters matched by the regex class backslash-s (JS whitespace); the
rare exotic Unicode space characters are omitted, none of the inputs the
claims touch contain them. -/
def jsIsSpace (c : Char) : Bool :=
  c == ' ' || c == '\t' || c == '\n' || c == '\r' ||
  c == Char.ofNat 11 || c == Char.ofNat 12

/-- Characters matched by the regex class backslash-w without the Unicode
flag: ASCII letters, digits and the underscore. -/
def jsIsWordChar (c : Char) : Bool :=
  c.isAlphanum || c == '_'

/-- JS String.prototype.trim: drop whitespace from both ends. -/
def jsTrim (s : String) : String :=
  String.mk (((s.data.dropWhile jsIsSpace).reverse.dropWhile jsIsSpace).reverse)

/-- JS String.prototype.toLowerCase, restricted to the ASCII range
(Char.toLower); the inputs of the claims are ASCII. -/
def jsToLower (s : String) : String :=
  String.mk (s.data.map Char.toLower)

/-- Split a character list at runs of whitespace, dropping empty pieces;
the accumulator holds the current token reversed. -/
def wsSplitAux : List Char → List Char → List (List Char)
  | [], acc => if acc = [] then [] else [acc.reverse]
  | c :: rest, acc =>
    if jsIsSpace c then
      if acc = [] then wsSplitAux rest []
      else acc.reverse :: wsSplitAux rest []
    else wsSplitAux rest (c :: acc)

/-- Line 84: transcript.trim().toLowerCase().split(regex backslash-s-plus).
On the empty trimmed string, JS split yields the singleton list holding the
empty string (the spurious-empty-token behaviour); on a non-empty trimmed
string it yields the whitespace-delimited tokens. -/
def jsSplitWs (s : String) : List String :=
  let t := jsToLower (jsTrim s)
  if t = "" then [""] else (wsSplitAux t.data []).map String.mk

/-- Line 91: word.replace(regex not-word-not-space or underscore, empty):
every character that is neither a word character nor whitespace is removed,
and the underscore is removed as well. -/
def cleanWord (w : String) : String :=
  String.mk (w.data.filter (fun c => (jsIsWordChar c || jsIsSpace c) && c != '_'))

/-- The cleaning step as claim C8 words it: only characters that are neither
word characters nor whitespace are removed, every word character including
the underscore being kept.  Stated for comparison with cleanWord. -/
def cleanWordClaimed (w : String) : String :=
  String.mk (w.data.filter (fun c => jsIsWordChar c || jsIsSpace c))

/-- Lines 23 and 29-33: the static filler-word and sentiment dictionaries. -/
def fillerWords : List String :=
  ["um", "uh", "like", "you know", "actually", "basically", "literally",
   "sort of", "kind of"]

def sentimentPositive : List String :=
  ["great", "awesome", "happy", "excellent", "wonderful", "love", "fantastic"]

def sentimentNegative : List String :=
  ["bad", "terrible", "sad", "awful", "hate", "horrible", "disappointing"]

def sentimentNeutral : List String :=
  ["okay", "fine", "normal", "usual"]

/-- The three counters of this.emotionScores (line 28). -/
structure EmotionScores where
  positive : Nat
  negative : Nat
  neutral : Nat
deriving DecidableEq

/-- The mutable session state of a supported SpeechRecognitionManager
instance (fields set in the constructor, lines 19-37).  analyticsTimer is
abstracted to the boolean timerActive (whether a live interval exists). -/
structure State where
  isRecording : Bool
  transcriptText : String
  startTime : Option Nat
  wordCount : Nat
  fillerWordCount : Nat
  uniqueWords : Finset String
  emotionScores : EmotionScores
  timerActive : Bool
deriving DecidableEq

/-- Constructor field initialisation on a supported platform
(lines 19-37). -/
def initState : State :=
  { isRecording := false
  , transcriptText := ""
  , startTime := none
  , wordCount := 0
  , fillerWordCount := 0
  , uniqueWords := ∅
  , emotionScores := { positive := 0, negative := 0, neutral := 0 }
  , timerActive := false }

/-- Case-insensitive literal match of a pattern at the head of a text. -/
def ciMatch : List Char → List Char → Bool
  | [], _ => true
  | _ :: _, [] => false
  | p :: ps, t :: ts => (p.toLower == t.toLower) && ciMatch ps ts

/-- Word-boundary test after the matched region: the regex anchor requires
the wordness of the last matched character and of the following character
(end of string counting as non-word) to differ. -/
def endBoundaryOk (p t : List Char) : Bool :=
  let lastW := match (t.take p.length).getLast? with
    | some d => jsIsWordChar d
    | none => false
  let nextW := match t.drop p.length with
    | [] => false
    | d :: _ => jsIsWordChar d
  lastW != nextW

/-- Wordness of the last character consumed by a match (the character that
precedes the position where scanning resumes). -/
def lastConsumedWord (p t : List Char) (prevWord : Bool) : Bool :=
  match (t.take p.length).getLast? with
  | some d => jsIsWordChar d
  | none => prevWord

/-- Global scan counting the non-overlapping case-insensitive matches of the
regex boundary-pattern-boundary over a text, as String.prototype.match with
the gi flags does (lines 107-113): leftmost match first, scanning resumes
after each match.  prevWord is the wordness of the character before the
current position (false at the start of the string); the fuel argument is a
strict bound on the number of scan steps. -/
def countMatchesAux (p : List Char) : Nat → List Char → Bool → Nat
  | 0, _, _ => 0
  | _ + 1, [], _ => 0
  | fuel + 1, c :: rest, prevWord =>
    if (prevWord != jsIsWordChar c) && ciMatch p (c :: rest)
        && endBoundaryOk p (c :: rest) then
      1 + countMatchesAux p fuel ((c :: rest).drop p.length)
            (lastConsumedWord p (c :: rest) prevWord)
    else
      countMatchesAux p fuel rest (jsIsWordChar c)

/-- Number of matches of new RegExp(boundary + fillerWord + boundary, gi)
in the raw transcript text (lines 107-113). -/
def countMatches (fw : String) (text : String) : Nat :=
  countMatchesAux fw.data (text.data.length + 1) text.data false

/-- The per-token body of the words.forEach loop in _processTranscript
(lines 90-104): clean the token, and if the clean token is non-empty add it
to uniqueWords and bump the first matching sentiment counter. -/
def processWord (st : State) (w : String) : State :=
  let cw := cleanWord w
  if 0 < cw.length then
    let st1 := { st with uniqueWords := insert cw st.uniqueWords }
    if sentimentPositive.contains cw then
      { st1 with emotionScores :=
          { st1.emotionScores with positive := st1.emotionScores.positive + 1 } }
    else if sentimentNegative.contains cw then
      { st1 with emotionScores :=
          { st1.emotionScores with negative := st1.emotionScores.negative + 1 } }
    else if sentimentNeutral.contains cw then
      { st1 with emotionScores :=
          { st1.emotionScores with neutral := st1.emotionScores.neutral + 1 } }
    else st1
  else st

/-- _processTranscript(transcript, isInterim), lines 83-115: split the
lowercased trimmed text on whitespace; on a final fragment add the raw token
count to wordCount; run the per-token loop; on a final fragment add the
filler-phrase match counts over the raw fragment text. -/
def processTranscript (st : State) (transcript : String) (isInterim : Bool) : State :=
  let words := jsSplitWs transcript
  let st1 := if isInterim then st
             else { st with wordCount := st.wordCount + words.length }
  let st2 := words.foldl processWord st1
  if isInterim then st2
  else
    { st2 with fillerWordCount :=
        (fillerWords.foldl (fun acc fw => acc + countMatches fw transcript)
          st2.fillerWordCount) }

/-- A JS value that is either a number or a string (the emotionalTone
fields are numbers in the zero-total branch and strings otherwise). -/
inductive JsVal where
  | num (q : ℚ)
  | str (s : String)
deriving DecidableEq

/-- The emotionalTone object of an analytics snapshot (lines 126-130). -/
structure EmotionalTone where
  positive : JsVal
  negative : JsVal
  neutral : JsVal
deriving DecidableEq

/-- The analytics object built on lines 132-138. -/
structure Analytics where
  speakingPace : ℤ
  fillerWordCount : Nat
  vocabularyDiversity : String
  emotionalTone : EmotionalTone
  duration : ℤ
deriving DecidableEq

/-- JS Math.round: round half towards positive infinity. -/
def jsRound (q : ℚ) : ℤ :=
  ⌊q + 1 / 2⌋

/-- JS Number.prototype.toFixed(2) on the non-negative rationals produced
here: round to the nearest hundredth (ties up) and render with exactly two
decimal digits. -/
def toFixed2 (q : ℚ) : String :=
  let n := (jsRound (q * 100)).toNat
  toString (n / 100) ++ "." ++ (if n % 100 < 10 then "0" else "") ++ toString (n % 100)

/-- Line 122: uniqueWords.size / wordCount when wordCount is positive,
0 otherwise (the value before toFixed is applied). -/
def vocabularyDiversityVal (st : State) : ℚ :=
  if 0 < st.wordCount then (st.uniqueWords.card : ℚ) / (st.wordCount : ℚ) else 0

/-- Line 125: the sum of the three emotion counters. -/
def emotionTotal (sc : EmotionScores) : Nat :=
  sc.positive + sc.negative + sc.neutral

/-- Lines 126-130: each share as a two-decimal string when the total is
positive; the numeric triple 0, 0, 1 when the total is zero. -/
def emotionalToneVal (sc : EmotionScores) : EmotionalTone :=
  if 0 < emotionTotal sc then
    { positive := JsVal.str (toFixed2 ((sc.positive : ℚ) / (emotionTotal sc : ℚ)))
    , negative := JsVal.str (toFixed2 ((sc.negative : ℚ) / (emotionTotal sc : ℚ)))
    , neutral := JsVal.str (toFixed2 ((sc.neutral : ℚ) / (emotionTotal sc : ℚ))) }
  else
    { positive := JsVal.num 0, negative := JsVal.num 0, neutral := JsVal.num 1 }

/-- _updateAnalytics(isFinal), lines 117-143, with the Date.now() reading
passed as now (milliseconds).  Returns the unchanged state together with the
invocation of onAnalyticsUpdate: none when startTime is unset (early return,
line 118), otherwise the analytics object paired with the isFinal flag. -/
def updateAnalyticsM (st : State) (now : Nat) (isFinal : Bool) :
    State × Option (Analytics × Bool) :=
  match st.startTime with
  | none => (st, none)
  | some t0 =>
    let duration : ℚ := (((now : ℚ) - (t0 : ℚ)) / 1000) / 60
    let wpm : ℤ := if 0 < duration then jsRound ((st.wordCount : ℚ) / duration) else 0
    (st, some
      ({ speakingPace := wpm
       , fillerWordCount := st.fillerWordCount
       , vocabularyDiversity := toFixed2 (vocabularyDiversityVal st)
       , emotionalTone := emotionalToneVal st.emotionScores
       , duration := jsRound (duration * 60) }, isFinal))

/-- The body of start() inside the try block (lines 148-163): isRecording
is set first, then recognition.start() runs (the point where the source may
raise, modelled by the throws flag), then startTime is recorded, the
counters are reset and the periodic timer is created.  An error carries the
state at the point the exception was raised. -/
def startBody (st : State) (now : Nat) (throws : Bool) : Except State State :=
  let st1 := { st with isRecording := true }
  if throws then Except.error st1
  else Except.ok
    { st1 with
        startTime := some now
      , wordCount := 0
      , fillerWordCount := 0
      , uniqueWords := ∅
      , emotionScores := { positive := 0, negative := 0, neutral := 0 }
      , transcriptText := ""
      , timerActive := true }

/-- start() on a supported instance (lines 145-169): run the body and catch
any exception, which is only logged (lines 166-168). -/
def startM (st : State) (now : Nat) (throws : Bool) : State :=
  match startBody st now throws with
  | Except.ok s => s
  | Except.error s => s

/-- The observable outcome of stop(): the new state, the final
onAnalyticsUpdate invocation if one was requested (the analytics object
paired with its isFinal flag), and whether the too-short warning was
logged. -/
structure StopResult where
  state : State
  snapshot : Option (Analytics × Bool)
  warned : Bool
deriving DecidableEq

/-- The body of stop() inside the try block (lines 174-190): isRecording is
cleared first, then recognition.stop() runs (the throw point), then the
timer is cleared; if startTime is set the elapsed duration decides between
the final _updateAnalytics(true) call (duration positive) and the
console.warn (otherwise). -/
def stopBody (st : State) (now : Nat) (throws : Bool) : Except State StopResult :=
  let st1 := { st with isRecording := false }
  if throws then Except.error st1
  else
    let st2 := { st1 with timerActive := false }
    match st.startTime with
    | some t0 =>
      let duration : ℚ := (((now : ℚ) - (t0 : ℚ)) / 1000) / 60
      if 0 < duration then
        Except.ok { state := st2, snapshot := (updateAnalyticsM st2 now true).2, warned := false }
      else
        Except.ok { state := st2, snapshot := none, warned := true }
    | none => Except.ok { state := st2, snapshot := none, warned := false }

/-- stop() on a supported instance (lines 171-194): run the body and catch
any exception, which is only logged (lines 191-193). -/
def stopM (st : State) (now : Nat) (throws : Bool) : StopResult :=
  match stopBody st now throws with
  | Except.ok r => r
  | Except.error s => { state := s, snapshot := none, warned := false }

/-- A SpeechRecognitionManager instance: either the degraded instance whose
constructor returned early (lines 9-12), leaving every field undefined, or
a supported instance with its session state. -/
inductive Manager where
  | degraded : Manager
  | active : State → Manager
deriving DecidableEq

/-- The constructor (lines 7-40): the supported flag is whether the browser
exposes a recognition engine. -/
def mkManager (supported : Bool) : Manager :=
  if supported then Manager.active initState else Manager.degraded

/-- start() at the instance level: on the degraded instance this.recognition
is undefined, so the guard on line 146 returns immediately. -/
def Manager.start : Manager → Nat → Bool → Manager
  | Manager.degraded, _, _ => Manager.degraded
  | Manager.active st, now, throws => Manager.active (startM st now throws)

/-- stop() at the instance level: the guard on line 172 makes it a no-op on
the degraded instance. -/
def Manager.stop : Manager → Nat → Bool → Manager × Option (Analytics × Bool) × Bool
  | Manager.degraded, _, _ => (Manager.degraded, none, false)
  | Manager.active st, now, throws =>
    let r := stopM st now throws
    (Manager.active r.state, r.snapshot, r.warned)

/-- getTranscript() (lines 204-206): reads this.transcriptText, which on
the degraded instance is the undefined value (modelled as none). -/
def Manager.getTranscript : Manager → Option String
  | Manager.degraded => none
  | Manager.active st => some st.transcriptText

/-- isListening() (lines 208-210): reads this.isRecording, undefined on the
degraded instance. -/
def Manager.isListening : Manager → Option Bool
  | Manager.degraded => none
  | Manager.active st => some st.isRecording

/-! Helper lemmas shared by the claim theorems. -/

/-- The duration computed from a start reading t0 and a stop reading now is
positive exactly when time actually elapsed. -/
theorem duration_pos_iff (t0 now : Nat) :
    (0 : ℚ) < (((now : ℚ) - (t0 : ℚ)) / 1000) / 60 ↔ t0 < now := by
  rw [div_div]
  constructor
  · intro h
    rcases div_pos_iff.mp h with ⟨ha, _⟩ | ⟨_, hb⟩
    · exact_mod_cast sub_pos.mp ha
    · norm_num at hb
  · intro h
    apply div_pos
    · rw [sub_pos]
      exact_mod_cast h
    · norm_num

/-- The per-token loop never touches wordCount. -/
theorem processWord_wordCount (st : State) (w : String) :
    (processWord st w).wordCount = st.wordCount := by
  unfold processWord
  dsimp only
  repeat' split
  all_goals rfl

/-- One token adds at most one element to uniqueWords. -/
theorem processWord_card_le (st : State) (w : String) :
    (processWord st w).uniqueWords.card ≤ st.uniqueWords.card + 1 := by
  unfold processWord
  dsimp only
  repeat' split
  all_goals simp [Finset.card_insert_le]

/-- Folding the per-token loop over a token list never touches wordCount. -/
theorem foldl_processWord_wordCount (ws : List String) (st : State) :
    (ws.foldl processWord st).wordCount = st.wordCount := by
  induction ws generalizing st with
  | nil => rfl
  | cons w ws ih => rw [List.foldl_cons, ih, processWord_wordCount]

/-- A token list adds at most its length to the uniqueWords cardinality. -/
theorem foldl_processWord_card (ws : List String) (st : State) :
    (ws.foldl processWord st).uniqueWords.card ≤ st.uniqueWords.card + ws.length := by
  induction ws generalizing st with
  | nil => simp
  | cons w ws ih =>
    rw [List.foldl_cons]
    have h1 := ih (processWord st w)
    have h2 := processWord_card_le st w
    simp only [List.length_cons]
    omega

/-- A final fragment adds exactly its raw token count to wordCount. -/
theorem processTranscript_final_wordCount (st : State) (f : String) :
    (processTranscript st f false).wordCount = st.wordCount + (jsSplitWs f).length := by
  unfold processTranscript
  simp only [Bool.false_eq_true, if_false]
  simp [foldl_processWord_wordCount]

/-- A final fragment adds at most its raw token count to the uniqueWords
cardinality. -/
theorem processTranscript_final_card (st : State) (f : String) :
    (processTranscript st f false).uniqueWords.card
      ≤ st.uniqueWords.card + (jsSplitWs f).length := by
  unfold processTranscript
  simp only [Bool.false_eq_true, if_false]
  exact foldl_processWord_card (jsSplitWs f) _

/-- Over final fragments only, the invariant that the number of unique
words is bounded by wordCount is preserved. -/
theorem finals_invariant (fs : List String) (st : State)
    (h : st.uniqueWords.card ≤ st.wordCount) :
    (fs.foldl (fun s f => processTranscript s f false) st).uniqueWords.card
      ≤ (fs.foldl (fun s f => processTranscript s f false) st).wordCount := by
  induction fs generalizing st with
  | nil => exact h
  | cons f fs ih =>
    rw [List.foldl_cons]
    apply ih
    have h1 := processTranscript_final_card st f
    have h2 := processTranscript_final_wordCount st f
    omega

/-! Claim theorems. -/

/-- C2: evaluation of the code at the failing input.  A whitespace-only
final fragment raises wordCount from 0 to 1 even though it contains zero
whitespace-delimited tokens: JS split of the empty trimmed string yields a
singleton list holding the empty string, and no guard discards it.  The
uniqueWords conjunct shows the extra count comes from the spurious empty
token, which is not a real token. -/
theorem c2_wordcount_empty_fragment :
    (processTranscript initState "   " false).wordCount = 1
    ∧ (processTranscript initState "   " false).uniqueWords = ∅ := by
  decide

/-- C5: evaluation of the code at the failing input.  Processing the empty
final fragment does terminate and leaves uniqueWords, fillerWordCount and
emotionScores unchanged, but it increments wordCount by one, so the state is
not left unchanged; the interim case is a true no-op. -/
theorem c5_empty_fragment_effect :
    processTranscript initState "" false = { initState with wordCount := 1 }
    ∧ processTranscript initState "" true = initState := by
  decide

/-- C8 counterexample: the clean token derived from a_b is ab, while the
claim (every word character, including underscore, is kept) requires a_b:
the replace regex removes the underscore as well. -/
theorem c8_underscore_counterexample :
    cleanWord "a_b" = "ab" ∧ cleanWordClaimed "a_b" = "a_b"
    ∧ cleanWord "a_b" ≠ cleanWordClaimed "a_b" := by
  decide

/-- C8 amended: the clean token keeps exactly the ASCII alphanumeric
characters and the whitespace characters of the token — word characters
except the underscore, which the regex removes — and tokens whose clean
form is empty are discarded by the per-token loop (no state change). -/
theorem c8_clean_token :
    (∀ w : String,
        cleanWord w = String.mk (w.data.filter (fun c => c.isAlphanum || jsIsSpace c)))
    ∧ ∀ (st : State) (w : String), cleanWord w = "" → processWord st w = st := by
  constructor
  · intro w
    unfold cleanWord
    apply congrArg String.mk
    apply List.filter_congr
    intro c _
    by_cases hc : c = '_'
    · subst hc
      decide
    · have hb : (c == '_') = false := by
        simpa using hc
      simp [jsIsWordChar, bne, hb]
  · intro st w h
    unfold processWord
    dsimp only
    rw [h]
    simp

/-- C8 witness: the amended theorem applied at the token a_b and, for the
discard clause, at the token consisting of one exclamation mark, whose clean
form is empty. -/
theorem c8_clean_token_witness :
    cleanWord "a_b" = String.mk ("a_b".data.filter (fun c => c.isAlphanum || jsIsSpace c))
    ∧ processWord initState "!" = initState :=
  ⟨c8_clean_token.1 "a_b", c8_clean_token.2 initState "!" (by decide)⟩

/-- C9: when no session has been started (startTime unset) the analytics
computation returns the unchanged state and invokes no analytics callback,
and stop() on such a state also requests no snapshot and does not crash. -/
theorem c9_idle_snapshot_null (st : State) (now : Nat) (f : Bool)
    (h : st.startTime = none) :
    updateAnalyticsM st now f = (st, none)
    ∧ (stopM st now false).snapshot = none
    ∧ (stopM st now false).warned = false := by
  refine ⟨?_, ?_, ?_⟩
  · unfold updateAnalyticsM
    rw [h]
  · simp only [stopM, stopBody, h, Bool.false_eq_true, if_false]
  · simp only [stopM, stopBody, h, Bool.false_eq_true, if_false]

/-- C9 witness: the theorem applied to the freshly constructed state, whose
startTime is unset. -/
theorem c9_idle_snapshot_null_witness :
    updateAnalyticsM initState 1000 false = (initState, none)
    ∧ (stopM initState 1000 false).snapshot = none
    ∧ (stopM initState 1000 false).warned = false :=
  c9_idle_snapshot_null initState 1000 false rfl

/-- C10: computing an analytics snapshot is a pure read: the session state
comes back unchanged, and recomputing the snapshot from the state returned
by a first computation, at the same clock reading, yields the identical
outcome. -/
theorem c10_snapshot_pure (st : State) (now : Nat) (f : Bool) :
    (updateAnalyticsM st now f).1 = st
    ∧ updateAnalyticsM ((updateAnalyticsM st now f).1) now f = updateAnalyticsM st now f := by
  have h : (updateAnalyticsM st now f).1 = st := by
    cases hh : st.startTime <;> simp [updateAnalyticsM, hh]
  exact ⟨h, by rw [h]⟩

/-- C10 witness: the theorem applied at a concrete state and clock
reading. -/
theorem c10_snapshot_pure_witness :
    (updateAnalyticsM initState 5 false).1 = initState
    ∧ updateAnalyticsM ((updateAnalyticsM initState 5 false).1) 5 false
        = updateAnalyticsM initState 5 false :=
  c10_snapshot_pure initState 5 false

/-- C7 counterexample: when recognition.start() raises, the resulting state
is neither the state before the call nor the completed transition: only
isRecording was flipped, startTime and the counters were never touched. -/
theorem c7_atomicity_counterexample :
    ¬ (startM initState 0 true = initState
       ∨ startM initState 0 true = startM initState 0 false) := by
  decide

/-- C7 amended: an exception raised by the source while starting or stopping
is caught locally and never propagates — both methods return normally — but
the transition is not atomic: a failed start leaves exactly isRecording set
to true with everything else untouched, and a failed stop leaves exactly
isRecording set to false, the timer not cancelled and no final snapshot
requested. -/
theorem c7_exception_swallowed (st : State) (now : Nat) :
    startBody st now true = Except.error { st with isRecording := true }
    ∧ startM st now true = { st with isRecording := true }
    ∧ stopBody st now true = Except.error { st with isRecording := false }
    ∧ stopM st now true
        = { state := { st with isRecording := false }, snapshot := none, warned := false } :=
  ⟨rfl, rfl, rfl, rfl⟩

/-- C7 witness: the amended theorem applied at a concrete state and clock
reading. -/
theorem c7_exception_swallowed_witness :
    startBody initState 7 true = Except.error { initState with isRecording := true }
    ∧ startM initState 7 true = { initState with isRecording := true }
    ∧ stopBody initState 7 true = Except.error { initState with isRecording := false }
    ∧ stopM initState 7 true
        = { state := { initState with isRecording := false }, snapshot := none, warned := false } :=
  c7_exception_swallowed initState 7

/-- C4 counterexample: on the degraded instance getTranscript() and
isListening() return the undefined value, not the empty string and not the
boolean false as the claim states. -/
theorem c4_degraded_counterexample :
    (mkManager false).getTranscript = none
    ∧ (mkManager false).getTranscript ≠ some ""
    ∧ (mkManager false).isListening = none
    ∧ (mkManager false).isListening ≠ some false := by
  decide

/-- C4 amended: in degraded mode start() and stop() are permanent no-ops
that request nothing, while getTranscript() and isListening() return the
undefined value (which is falsy, but is neither the empty string nor the
boolean false). -/
theorem c4_degraded_noop (now : Nat) (throws : Bool) :
    Manager.start (mkManager false) now throws = mkManager false
    ∧ (Manager.stop (mkManager false) now throws).1 = mkManager false
    ∧ (Manager.stop (mkManager false) now throws).2 = (none, false)
    ∧ Manager.getTranscript (mkManager false) = none
    ∧ Manager.isListening (mkManager false) = none :=
  ⟨rfl, rfl, rfl, rfl, rfl⟩

/-- C4 witness: the amended theorem at a concrete clock reading and throw
flag. -/
theorem c4_degraded_noop_witness :
    Manager.start (mkManager false) 3 true = mkManager false
    ∧ (Manager.stop (mkManager false) 3 true).1 = mkManager false
    ∧ (Manager.stop (mkManager false) 3 true).2 = (none, false)
    ∧ Manager.getTranscript (mkManager false) = none
    ∧ Manager.isListening (mkManager false) = none :=
  c4_degraded_noop 3 true

/-- C1 counterexample: a session started at reading 5 and stopped at the
same reading (elapsed duration zero) gets no final snapshot at all — stop()
only logs the too-short warning — refuting the claim that the final
snapshot is delivered regardless of elapsed duration. -/
theorem c1_zero_duration_counterexample :
    (startM initState 5 false).startTime = some 5
    ∧ (stopM (startM initState 5 false) 5 false).snapshot = none
    ∧ (stopM (startM initState 5 false) 5 false).warned = true := by
  have h : (startM initState 5 false).startTime = some 5 := by decide
  refine ⟨h, ?_, ?_⟩
  · simp only [stopM, stopBody, h]
    norm_num
  · simp only [stopM, stopBody, h]
    norm_num

/-- C1 amended: when a session was active (startTime set), stop() requests
exactly one final snapshot (isFinal true) when the elapsed duration is
positive; when the elapsed duration is zero (or not positive) it requests
no final snapshot and only surfaces the too-short warning. -/
theorem c1_stop_final_snapshot (st : State) (t0 now : Nat)
    (h : st.startTime = some t0) :
    (t0 < now → ∃ a : Analytics,
        (stopM st now false).snapshot = some (a, true)
        ∧ (stopM st now false).warned = false)
    ∧ (now ≤ t0 →
        (stopM st now false).snapshot = none
        ∧ (stopM st now false).warned = true) := by
  constructor
  · intro hlt
    have hd : (0 : ℚ) < (((now : ℚ) - (t0 : ℚ)) / 1000) / 60 :=
      (duration_pos_iff t0 now).mpr hlt
    simp only [stopM, stopBody, h, Bool.false_eq_true, if_false, if_pos hd]
    simp only [updateAnalyticsM, h]
    exact ⟨_, rfl, trivial⟩
  · intro hle
    have hd : ¬ (0 : ℚ) < (((now : ℚ) - (t0 : ℚ)) / 1000) / 60 := by
      rw [duration_pos_iff]
      omega
    simp only [stopM, stopBody, h, Bool.false_eq_true, if_false, if_neg hd]
    exact ⟨trivial, trivial⟩

/-- C1 witness: a session started at reading 5 and stopped 65 seconds
later receives its final snapshot. -/
theorem c1_stop_final_snapshot_witness :
    ∃ a : Analytics, (stopM (startM initState 5 false) 65005 false).snapshot = some (a, true)
      ∧ (stopM (startM initState 5 false) 65005 false).warned = false :=
  (c1_stop_final_snapshot (startM initState 5 false) 5 65005 (by decide)).1 (by decide)

/-- C3 counterexample: after the interim fragment a b c followed by the
final fragment a, wordCount is 1 while uniqueWords holds three words, so
the diversity value computed by the snapshot engine is 3, outside [0,1],
refuting the claim for states built from a mix of interim and final
fragments. -/
theorem c3_diversity_counterexample :
    (processTranscript (processTranscript (startM initState 0 false) "a b c" true) "a" false).wordCount = 1
    ∧ 1 < vocabularyDiversityVal
        (processTranscript (processTranscript (startM initState 0 false) "a b c" true) "a" false) := by
  have h1 : (processTranscript (processTranscript (startM initState 0 false) "a b c" true) "a" false).uniqueWords.card = 3 := by
    decide
  have h2 : (processTranscript (processTranscript (startM initState 0 false) "a b c" true) "a" false).wordCount = 1 := by
    decide
  refine ⟨h2, ?_⟩
  rw [vocabularyDiversityVal, h1, h2]
  norm_num

/-- C3 amended: the diversity value is reported as exactly 0 whenever
wordCount is 0, and for session states built from final fragments only
(starting from a freshly started session) it always lies in [0,1];
interim fragments can push uniqueWords past wordCount and the bound with
them (see the counterexample). -/
theorem c3_diversity_bounds :
    (∀ s : State, s.wordCount = 0 → vocabularyDiversityVal s = 0)
    ∧ ∀ fs : List String,
        0 ≤ vocabularyDiversityVal
              (fs.foldl (fun s f => processTranscript s f false) (startM initState 0 false))
        ∧ vocabularyDiversityVal
              (fs.foldl (fun s f => processTranscript s f false) (startM initState 0 false)) ≤ 1 := by
  constructor
  · intro s hs
    unfold vocabularyDiversityVal
    rw [hs]
    norm_num
  · intro fs
    have hinv := finals_invariant fs (startM initState 0 false) (by decide)
    set st := fs.foldl (fun s f => processTranscript s f false) (startM initState 0 false) with hst
    unfold vocabularyDiversityVal
    by_cases hw : 0 < st.wordCount
    · rw [if_pos hw]
      constructor
      · positivity
      · rw [div_le_one (by exact_mod_cast hw)]
        exact_mod_cast hinv
    · rw [if_neg hw]
      norm_num

/-- C3 witness: the zero clause at the fresh state and the bounds for the
one-fragment session consisting of the final fragment a. -/
theorem c3_diversity_bounds_witness :
    vocabularyDiversityVal initState = 0
    ∧ 0 ≤ vocabularyDiversityVal
            (["a"].foldl (fun s f => processTranscript s f false) (startM initState 0 false))
    ∧ vocabularyDiversityVal
            (["a"].foldl (fun s f => processTranscript s f false) (startM initState 0 false)) ≤ 1 :=
  ⟨c3_diversity_bounds.1 initState rfl,
   (c3_diversity_bounds.2 ["a"]).1, (c3_diversity_bounds.2 ["a"]).2⟩

/-- C6 counterexample: in a snapshot of an active session with no sentiment
events the neutral field of emotionalTone is the number 1, not the
two-decimal string, refuting the uniform string(2dp) representation the
claim states for the zero-total case. -/
theorem c6_tone_counterexample :
    ((updateAnalyticsM (startM initState 0 false) 2000 false).2.map
        (fun x => x.1.emotionalTone.neutral)) = some (JsVal.num 1)
    ∧ JsVal.num 1 ≠ JsVal.str "1.00" := by
  decide

/-- C6 amended: in every snapshot produced while a session is active, when
the sum of the three counters is positive each tone field is that counter
divided by the sum rendered as a two-decimal string, but when the sum is 0
the reported tone is the numeric triple 0, 0, 1 — plain numbers, not the
string(2dp) representation. -/
theorem c6_tone_shape (st : State) (t0 now : Nat) (f : Bool)
    (h : st.startTime = some t0) :
    ∃ a : Analytics, (updateAnalyticsM st now f).2 = some (a, f)
      ∧ a.emotionalTone = emotionalToneVal st.emotionScores
      ∧ (0 < emotionTotal st.emotionScores →
          a.emotionalTone =
            { positive := JsVal.str (toFixed2
                ((st.emotionScores.positive : ℚ) / (emotionTotal st.emotionScores : ℚ)))
            , negative := JsVal.str (toFixed2
                ((st.emotionScores.negative : ℚ) / (emotionTotal st.emotionScores : ℚ)))
            , neutral := JsVal.str (toFixed2
                ((st.emotionScores.neutral : ℚ) / (emotionTotal st.emotionScores : ℚ))) })
      ∧ (emotionTotal st.emotionScores = 0 →
          a.emotionalTone =
            { positive := JsVal.num 0, negative := JsVal.num 0, neutral := JsVal.num 1 }) := by
  unfold updateAnalyticsM
  rw [h]
  dsimp only
  refine ⟨_, rfl, rfl, ?_, ?_⟩
  · intro hpos
    unfold emotionalToneVal
    dsimp only
    rw [if_pos hpos]
  · intro hz
    unfold emotionalToneVal
    dsimp only
    rw [hz]
    simp

/-- C6 witness: a fresh active session with no sentiment events reports the
numeric triple. -/
theorem c6_tone_shape_witness :
    ∃ a : Analytics, (updateAnalyticsM (startM initState 0 false) 2000 false).2 = some (a, false)
      ∧ a.emotionalTone =
          { positive := JsVal.num 0, negative := JsVal.num 0, neutral := JsVal.num 1 } := by
  obtain ⟨a, h1, h2, h3, h4⟩ := c6_tone_shape (startM initState 0 false) 0 2000 false rfl
  exact ⟨a, h1, h4 rfl⟩
